import Mathlib

/-!
Shallow embedding of the jobs-analyzer scraper core (`src/scrape.py`).

The scraper has four operations:
  * `make_url`        — builds the search URL from countries, tags, posted-since;
  * `load_elements`   — navigates and clicks the "show more" control, exhaustively
                        or a bounded number of times, then collects listing elements;
  * `get_search_jobs` — parses each listing element's rendered text into a summary record;
  * `get_job_data`    — fetches a detail page and extracts description and keyword tags.

DOM elements are modelled by their two observed attributes (rendered text, link
target); the browser is modelled by an oracle giving the outcome of each
"show more" attempt and the listing elements present after each successful
click. Python exceptions are modelled with `Except`/`Option`.
-/

namespace JobsAnalyzer

/-- A scraped DOM listing element: Selenium exposes its rendered `text` and its
link target `href` (via `get_attribute`). -/
structure Element where
  text : String
  href : String
deriving DecidableEq, Repr

/-- The newline character that `item.text.split('\n')` splits on. -/
def nlChar : Char := Char.ofNat 10

/-- The empty string. -/
def emptyString : String := ""

/-- Helper for `splitFields`: walks the character list accumulating the
current field (reversed); a newline ends the current field. -/
def splitFieldsAux : List Char → List Char → List String
  | [], acc => [String.mk acc.reverse]
  | c :: cs, acc =>
    if c = nlChar then String.mk acc.reverse :: splitFieldsAux cs []
    else splitFieldsAux cs (c :: acc)

/-- Embedding of Python `s.split('\n')` (split on every newline, empty pieces
kept, the empty string yielding `[""]`). -/
def splitFields (s : String) : List String := splitFieldsAux s.data []

/-- The default salary used when a listing has no salary line. -/
def unknownSalary : String := "Unknown"

/-- One summary record of `get_search_jobs` (the dict appended to `all_outputs`). -/
structure Summary where
  title : String
  category : String
  location : String
  position_type : String
  salary : String
  company : String
  date : String
  url : String
deriving DecidableEq, Repr

/-- The body of the `for item in tqdm(elements)` loop of `get_search_jobs`
(src/scrape.py lines 157-186): split the rendered text on newlines, skip the
item when fewer than 6 fields, otherwise build the record, reading salary,
company and date from positions 4/5/6 when there are exactly 7 fields and
from `"Unknown"`/4/5 otherwise. The `getD` defaults are never reached: every
index used is below the field count guaranteed by the branch. -/
def parseItem (item : Element) : Option Summary :=
  let item_metadata := splitFields item.text
  let num_fields := item_metadata.length
  if num_fields < 6 then none
  else some {
    title := item_metadata.getD 0 emptyString
    category := item_metadata.getD 1 emptyString
    location := item_metadata.getD 2 emptyString
    position_type := item_metadata.getD 3 emptyString
    salary := if num_fields = 7 then item_metadata.getD 4 emptyString else unknownSalary
    company := if num_fields = 7 then item_metadata.getD 5 emptyString else item_metadata.getD 4 emptyString
    date := if num_fields = 7 then item_metadata.getD 6 emptyString else item_metadata.getD 5 emptyString
    url := item.href }

/-- Embedding of `get_search_jobs`: process the elements in order, appending a
record for each element `parseItem` accepts and skipping the rest. -/
def get_search_jobs (elements : List Element) : List Summary :=
  elements.filterMap parseItem

/-- Outcome of one iteration body of the "show more" loop of `load_elements`:
the control was found and clicked, or the `WebDriverWait` timed out without a
clickable control, or some other exception was raised inside the `try` body
(e.g. the click itself failed). -/
inductive AttemptResult
  | clicked
  | timeoutNoControl
  | otherFault
deriving DecidableEq, Repr

/-- Abstract browser/driver state for `load_elements`: whether `driver.get`
succeeds, the outcome of the i-th "show more" attempt, and the listing
elements present in the page after k successful clicks. -/
structure Browser where
  navOk : Bool
  att : Nat → AttemptResult
  elementsAfter : Nat → List Element

/-- Faults that `load_elements` can propagate to its caller. -/
inductive Fault
  | navFailure
deriving DecidableEq, Repr

/-- The `while True` expand loop of `load_elements` with `full_load=True`
(src/scrape.py lines 98-108), run with explicit fuel: from attempt index `k`,
keep clicking while the attempt succeeds; the first non-`clicked` outcome
(timeout or any other exception, caught by the bare `except:`) ends the loop,
returning the number of successful clicks. `none` means the fuel ran out with
the loop still running. -/
def runFull (att : Nat → AttemptResult) : Nat → Nat → Option Nat
  | _, 0 => none
  | k, fuel + 1 =>
    match att k with
    | AttemptResult.clicked => runFull att (k + 1) fuel
    | _ => some k

/-- The `for i in range(clicks)` expand loop of `load_elements` with
`full_load=False` (src/scrape.py lines 110-121): returns (successful clicks,
attempts made). Each loop iteration entered is one attempt; the first
non-`clicked` outcome breaks out of the loop. -/
def runBounded (att : Nat → AttemptResult) : Nat → Nat → Nat × Nat
  | k, 0 => (k, 0)
  | k, n + 1 =>
    match att k with
    | AttemptResult.clicked =>
        let r := runBounded att (k + 1) n
        (r.1, r.2 + 1)
    | _ => (k, 1)

/-- Embedding of `load_elements`: navigate (a navigation failure propagates
uncaught, modelled as `Except.error`), then run the expand loop in the chosen
mode, then collect the elements currently in the page. In full mode the value
`Except.ok none` stands for the loop still running when the fuel ran out. -/
def load_elements (b : Browser) (full_load : Bool) (clicks fuel : Nat) :
    Except Fault (Option (List Element)) :=
  if b.navOk = false then Except.error Fault.navFailure
  else if full_load then
    match runFull b.att 0 fuel with
    | none => Except.ok none
    | some k => Except.ok (some (b.elementsAfter k))
  else Except.ok (some (b.elementsAfter (runBounded b.att 0 clicks).1))

/-- The separator used by `','.join(...)`. -/
def comma : String := ","

/-- The fixed prefix of the search URL up to the `tag` query value. -/
def urlHead : String := "https://www.workingnomads.com/jobs?tag="

/-- The literal between the tag value and the location value. -/
def locParam : String := "&location="

/-- The literal between the location value and the posted-date value. -/
def dateParam : String := "&postedDate="

/-- Embedding of `make_url` (src/scrape.py lines 28-54): the f-string
interpolating the comma-joined tags, the comma-joined countries, and the
posted-since day count. -/
def make_url (countries tags : List String) (posted_since : Int) : String :=
  urlHead ++ String.intercalate comma tags ++ locParam ++
    String.intercalate comma countries ++ dateParam ++ toString posted_since

/-- Faults that `get_job_data` can propagate to its caller. -/
inductive ScrapeError
  | noSuchElement
deriving DecidableEq, Repr

/-- The dict returned by `get_job_data`. -/
structure JobData where
  url : String
  description : String
  keywords : List String
deriving DecidableEq, Repr

/-- Abstract state of a detail page: the text of the first element of class
`job-detail` if one exists, and the elements of class `tag` in page order. -/
structure DetailPage where
  jobDetail : Option String
  tags : List Element

/-- Python `str.strip()` whitespace: space, tab, newline, carriage return,
vertical tab, form feed. -/
def isPySpace (c : Char) : Bool :=
  c = Char.ofNat 32 || c = Char.ofNat 9 || c = Char.ofNat 10 ||
    c = Char.ofNat 13 || c = Char.ofNat 11 || c = Char.ofNat 12

/-- Embedding of Python `s.strip()`: drop whitespace from both ends. -/
def pyStrip (s : String) : String :=
  String.mk ((s.data.dropWhile isPySpace).reverse.dropWhile isPySpace).reverse

/-- Embedding of `get_job_data` (src/scrape.py lines 188-230): navigate to the
url, read the description from the `job-detail` element — its absence raises
`NoSuchElementException`, which propagates — and collect the texts of the
`tag` elements whose stripped text is non-empty, in page order. -/
def get_job_data (page : DetailPage) (url : String) : Except ScrapeError JobData :=
  match page.jobDetail with
  | none => Except.error ScrapeError.noSuchElement
  | some d =>
      Except.ok
        { url := url
          description := d
          keywords := (page.tags.filter (fun e => pyStrip e.text != emptyString)).map Element.text }

/-! Concrete inputs used by witnesses and counterexamples. -/

/-- A concrete listing url. -/
def wHref : String := "https://www.workingnomads.com/jobs/1"

/-- Field 1 of the 7-field witness listing. -/
def w1 : String := "Backend Engineer"

/-- Field 2 of the 7-field witness listing. -/
def w2 : String := "Engineering"

/-- Field 3 of the 7-field witness listing. -/
def w3 : String := "Remote/UK"

/-- Field 4 of the 7-field witness listing. -/
def w4 : String := "Full-time"

/-- Field 5 (salary) of the 7-field witness listing. -/
def w5 : String := "$80k-$100k"

/-- Field 6 (company) of the 7-field witness listing. -/
def w6 : String := "Acme Co"

/-- Field 7 (date) of the 7-field witness listing. -/
def w7 : String := "2024-01-01"

/-- Rendered text of the 7-field witness listing. -/
def text7 : String := "Backend Engineer\nEngineering\nRemote/UK\nFull-time\n$80k-$100k\nAcme Co\n2024-01-01"

/-- The 7-field witness listing element. -/
def elem7 : Element := { text := text7, href := wHref }

/-- Field 1 of the 6-field witness listing. -/
def v1 : String := "Data Analyst"

/-- Field 2 of the 6-field witness listing. -/
def v2 : String := "Data"

/-- Field 3 of the 6-field witness listing. -/
def v3 : String := "Remote/USA"

/-- Field 4 of the 6-field witness listing. -/
def v4 : String := "Contract"

/-- Field 5 (company) of the 6-field witness listing. -/
def v5 : String := "BetaCorp"

/-- Field 6 (date) of the 6-field witness listing. -/
def v6 : String := "2024-01-02"

/-- Rendered text of the 6-field witness listing. -/
def text6 : String := "Data Analyst\nData\nRemote/USA\nContract\nBetaCorp\n2024-01-02"

/-- The 6-field witness listing element. -/
def elem6 : Element := { text := text6, href := wHref }

/-- Rendered text of the malformed witness listing. -/
def shortText : String := "OnlyTitle\nOnlyCategory"

/-- A malformed listing whose text has only 2 fields. -/
def elemShort : Element := { text := shortText, href := wHref }

/-- Rendered text of the 8-field witness listing. -/
def text8 : String := "T\nC\nL\nP\nS\nCo\nD\nExtra"

/-- The 8-field witness listing element. -/
def elem8 : Element := { text := text8, href := wHref }

/-- A 6-field listing element whose link target attribute is empty. -/
def cexElement : Element := { text := text6, href := emptyString }

/-- An all-empty summary record, used only as a `headD` fallback. -/
def dummySummary : Summary :=
  Summary.mk emptyString emptyString emptyString emptyString emptyString
    emptyString emptyString emptyString

/-- Witness attempt oracle: the control is clickable once, then the lookup
times out. -/
def wbAtt : Nat → AttemptResult :=
  fun i => if i = 0 then AttemptResult.clicked else AttemptResult.timeoutNoControl

/-- Witness browser for the bounded-mode theorem. -/
def wBrowser : Browser :=
  { navOk := true, att := wbAtt, elementsAfter := fun _ => [elem7] }

/-- Attempt oracle where the first attempt raises a non-timeout fault
(e.g. the click itself fails). -/
def cexAtt : Nat → AttemptResult := fun _ => AttemptResult.otherFault

/-- Browser whose navigation succeeds but whose first "show more" attempt
raises a non-timeout fault. -/
def cexBrowser : Browser :=
  { navOk := true, att := cexAtt, elementsAfter := fun _ => [] }

/-- A concrete description text. -/
def wDesc : String := "Great role working on distributed systems."

/-- A tag element with non-blank text. -/
def tagKeep : Element := { text := w2, href := emptyString }

/-- Whitespace-only tag text. -/
def blankText : String := "  "

/-- A tag element whose trimmed text is empty. -/
def tagBlank : Element := { text := blankText, href := emptyString }

/-- Witness detail page with one blank tag between two non-blank ones. -/
def wPage : DetailPage :=
  { jobDetail := some wDesc, tags := [tagKeep, tagBlank, tagKeep] }

/-- A detail page with no `job-detail` element. -/
def noDescPage : DetailPage := { jobDetail := none, tags := [tagKeep] }

/-- A country token. -/
def cUS : String := "usa"

/-- A country token. -/
def cEU : String := "europe"

/-- A tag token. -/
def cPy : String := "python"

/-- Witness country list. -/
def wCountries : List String := [cUS, cEU]

/-- Witness tag list. -/
def wTags : List String := [cPy]

/-! Helper lemmas about `parseItem`. -/

lemma parseItem_of_seven (e : Element) (a b c d s co dt : String)
    (h : splitFields e.text = [a, b, c, d, s, co, dt]) :
    parseItem e = some (Summary.mk a b c d s co dt e.href) := by
  simp [parseItem, h]

lemma parseItem_of_six (e : Element) (a b c d co dt : String)
    (h : splitFields e.text = [a, b, c, d, co, dt]) :
    parseItem e = some (Summary.mk a b c d unknownSalary co dt e.href) := by
  simp [parseItem, h]

lemma parseItem_of_short (e : Element) (h : (splitFields e.text).length < 6) :
    parseItem e = none := by
  simp [parseItem, h]

lemma parseItem_url (e : Element) (s : Summary) (h : parseItem e = some s) :
    s.url = e.href := by
  by_cases hc : (splitFields e.text).length < 6
  · rw [parseItem_of_short e hc] at h
    cases h
  · simp only [parseItem] at h
    rw [if_neg hc] at h
    cases Option.some.inj h
    rfl

/-- C1: a listing element whose rendered text splits into exactly 7 fields
yields one record mapping those fields in order to title, category, location,
position_type, salary, company, date — wherever the element sits in the input. -/
theorem extractor_seven_field_order (pre post : List Element) (e : Element)
    (a b c d s co dt : String) (h : splitFields e.text = [a, b, c, d, s, co, dt]) :
    get_search_jobs (pre ++ e :: post) =
      get_search_jobs pre ++ Summary.mk a b c d s co dt e.href :: get_search_jobs post := by
  simp [get_search_jobs, List.filterMap_append, List.filterMap_cons,
    parseItem_of_seven e a b c d s co dt h]

/-- Witness for C1 at the concrete 7-field listing of the spec's end-to-end
scenario. -/
theorem extractor_seven_field_order_witness :
    get_search_jobs ([] ++ elem7 :: []) =
      get_search_jobs [] ++ Summary.mk w1 w2 w3 w4 w5 w6 w7 elem7.href :: get_search_jobs [] :=
  extractor_seven_field_order [] [] elem7 w1 w2 w3 w4 w5 w6 w7 (by decide)

/-- C2: a listing element whose rendered text splits into exactly 6 fields
yields one record whose salary is the string "Unknown" and whose remaining
fields map in order to title, category, location, position_type, company, date. -/
theorem extractor_six_field_default_salary (pre post : List Element) (e : Element)
    (a b c d co dt : String) (h : splitFields e.text = [a, b, c, d, co, dt]) :
    get_search_jobs (pre ++ e :: post) =
      get_search_jobs pre ++ Summary.mk a b c d unknownSalary co dt e.href :: get_search_jobs post
    ∧ unknownSalary = "Unknown" := by
  refine ⟨?_, rfl⟩
  simp [get_search_jobs, List.filterMap_append, List.filterMap_cons,
    parseItem_of_six e a b c d co dt h]

/-- Witness for C2 at the concrete 6-field listing of the spec's end-to-end
scenario. -/
theorem extractor_six_field_default_salary_witness :
    (get_search_jobs ([] ++ elem6 :: []) =
      get_search_jobs [] ++ Summary.mk v1 v2 v3 v4 unknownSalary v5 v6 elem6.href :: get_search_jobs []
    ∧ unknownSalary = "Unknown") :=
  extractor_six_field_default_salary [] [] elem6 v1 v2 v3 v4 v5 v6 (by decide)

/-- C3: a listing element whose rendered text splits into fewer than 6 fields
produces no record, and the output is exactly the (order-preserving) result
of processing the remaining elements; the embedding is a total function, so
no error is raised. -/
theorem extractor_discards_short_element (pre post : List Element) (e : Element)
    (h : (splitFields e.text).length < 6) :
    get_search_jobs (pre ++ e :: post) = get_search_jobs (pre ++ post) := by
  simp [get_search_jobs, List.filterMap_append, List.filterMap_cons, parseItem_of_short e h]

/-- Witness for C3: the 2-field malformed listing is dropped between two
well-formed ones. -/
theorem extractor_discards_short_element_witness :
    get_search_jobs ([elem7] ++ elemShort :: [elem6]) = get_search_jobs ([elem7] ++ [elem6]) :=
  extractor_discards_short_element [elem7] [elem6] elemShort (by decide)

/-- C10: a listing element with 8 or more fields is not discarded; the 6-field
layout applies (salary "Unknown", company from index 4, date from index 5) and
fields beyond index 5 are ignored, because the 7-field layout is selected only
on an exact count of 7. -/
theorem extractor_eight_plus_uses_six_layout (pre post : List Element) (e : Element)
    (h : 8 ≤ (splitFields e.text).length) :
    get_search_jobs (pre ++ e :: post) =
      get_search_jobs pre ++
        Summary.mk ((splitFields e.text).getD 0 emptyString) ((splitFields e.text).getD 1 emptyString)
          ((splitFields e.text).getD 2 emptyString) ((splitFields e.text).getD 3 emptyString)
          unknownSalary ((splitFields e.text).getD 4 emptyString)
          ((splitFields e.text).getD 5 emptyString) e.href :: get_search_jobs post := by
  have h1 : ¬ (splitFields e.text).length < 6 := by omega
  have h2 : ¬ (splitFields e.text).length = 7 := by omega
  have hp : parseItem e = some (Summary.mk ((splitFields e.text).getD 0 emptyString)
      ((splitFields e.text).getD 1 emptyString) ((splitFields e.text).getD 2 emptyString)
      ((splitFields e.text).getD 3 emptyString) unknownSalary
      ((splitFields e.text).getD 4 emptyString) ((splitFields e.text).getD 5 emptyString)
      e.href) := by
    simp [parseItem, h1, h2]
  simp [get_search_jobs, List.filterMap_append, List.filterMap_cons, hp]

/-- Witness for C10 at a concrete 8-field listing. -/
theorem extractor_eight_plus_uses_six_layout_witness :
    get_search_jobs ([] ++ elem8 :: []) =
      get_search_jobs [] ++
        Summary.mk ((splitFields elem8.text).getD 0 emptyString) ((splitFields elem8.text).getD 1 emptyString)
          ((splitFields elem8.text).getD 2 emptyString) ((splitFields elem8.text).getD 3 emptyString)
          unknownSalary ((splitFields elem8.text).getD 4 emptyString)
          ((splitFields elem8.text).getD 5 emptyString) elem8.href :: get_search_jobs [] :=
  extractor_eight_plus_uses_six_layout [] [] elem8 (by decide)

/-- C9 counterexample: a 6-field listing element whose link target attribute
is empty produces a record whose url is the empty string, so not every
produced record has a non-empty url. -/
theorem summary_url_can_be_empty :
    (get_search_jobs [cexElement]).map Summary.url = [emptyString]
    ∧ emptyString.length = 0 := by
  exact ⟨by decide, rfl⟩

/-- C9 amended: every produced record's url is copied from the link target
attribute of one of the input elements (never from the text block); in
particular the url is non-empty whenever every input element's link target
attribute is non-empty. -/
theorem summary_url_from_href (es : List Element)
    (h : ∀ e, e ∈ es → e.href ≠ emptyString) :
    ∀ s, s ∈ get_search_jobs es → (∃ e, e ∈ es ∧ s.url = e.href) ∧ s.url ≠ emptyString := by
  intro s hs
  rw [get_search_jobs, List.mem_filterMap] at hs
  obtain ⟨e, he, hpe⟩ := hs
  have hu := parseItem_url e s hpe
  exact ⟨⟨e, he, hu⟩, hu ▸ h e he⟩

/-- Witness for the amended C9 at a concrete singleton input with a non-empty
link target. -/
theorem summary_url_from_href_witness :
    (∃ e, e ∈ [elem7] ∧ ((get_search_jobs [elem7]).headD dummySummary).url = e.href)
    ∧ ((get_search_jobs [elem7]).headD dummySummary).url ≠ emptyString :=
  summary_url_from_href [elem7] (by decide)
    ((get_search_jobs [elem7]).headD dummySummary) (by decide)


/-! Pagination Loader lemmas. -/

lemma runBounded_snd_le (att : Nat → AttemptResult) : ∀ n k, (runBounded att k n).2 ≤ n := by
  intro n
  induction n with
  | zero => intro k; simp [runBounded]
  | succ n ih =>
    intro k
    cases hk : att k with
    | clicked => simpa [runBounded, hk] using ih (k + 1)
    | timeoutNoControl => simp [runBounded, hk]
    | otherFault => simp [runBounded, hk]

lemma runBounded_stop (att : Nat → AttemptResult) (i : Nat)
    (hi : att i ≠ AttemptResult.clicked) :
    ∀ n k, k ≤ i → i < k + n → (runBounded att k n).1 ≤ i := by
  intro n
  induction n with
  | zero => intro k hk hl; omega
  | succ n ih =>
    intro k hk hl
    cases hk2 : att k with
    | clicked =>
      have hne : k ≠ i := fun he => hi (he ▸ hk2)
      have := ih (k + 1) (by omega) (by omega)
      simpa [runBounded, hk2] using this
    | timeoutNoControl => simp [runBounded, hk2]; omega
    | otherFault => simp [runBounded, hk2]; omega

/-- C5: in bounded mode with click bound n, `load_elements` makes at most n
click attempts; the returned listing elements are those present in the page
after the clicks actually performed; and if the control is unavailable at some
attempt index below n, the loop stops by that index (strictly fewer than n
clicks are performed). -/
theorem bounded_mode_clicks (b : Browser) (n fuel : Nat) (h : b.navOk = true) :
    (runBounded b.att 0 n).2 ≤ n ∧
    load_elements b false n fuel = Except.ok (some (b.elementsAfter (runBounded b.att 0 n).1)) ∧
    ∀ i, i < n → b.att i ≠ AttemptResult.clicked →
      (runBounded b.att 0 n).1 ≤ i ∧ (runBounded b.att 0 n).1 < n := by
  refine ⟨runBounded_snd_le b.att n 0, by simp [load_elements, h], ?_⟩
  intro i hin hi
  have hs := runBounded_stop b.att i hi n 0 (Nat.zero_le i) (by omega)
  exact ⟨hs, by omega⟩

/-- Witness for C5: a browser whose control is clickable once and then gone,
with click bound 3. -/
theorem bounded_mode_clicks_witness :
    (runBounded wBrowser.att 0 3).2 ≤ 3 ∧
    load_elements wBrowser false 3 0 =
      Except.ok (some (wBrowser.elementsAfter (runBounded wBrowser.att 0 3).1)) ∧
    ((runBounded wBrowser.att 0 3).1 ≤ 1 ∧ (runBounded wBrowser.att 0 3).1 < 3) :=
  ⟨(bounded_mode_clicks wBrowser 3 0 rfl).1,
   (bounded_mode_clicks wBrowser 3 0 rfl).2.1,
   (bounded_mode_clicks wBrowser 3 0 rfl).2.2 1 (by decide) (by decide)⟩

/-- C4 amended: in both modes, `load_elements` propagates an error exactly
when navigation fails; every outcome of the expand loop — lookup timeout or
any other exception raised inside the loop body, both caught by the bare
`except:` — terminates the loop normally and is never surfaced as an error. -/
theorem load_error_iff_nav (b : Browser) (m : Bool) (clicks fuel : Nat) :
    (∃ f, load_elements b m clicks fuel = Except.error f) ↔ b.navOk = false := by
  constructor
  · rintro ⟨f, hf⟩
    by_contra hn
    rw [Bool.not_eq_false] at hn
    rw [load_elements, if_neg (by simp [hn])] at hf
    by_cases hm : m = true
    · rw [if_pos hm] at hf
      cases hr : runFull b.att 0 fuel <;> rw [hr] at hf <;> cases hf
    · rw [if_neg hm] at hf
      cases hf
  · intro hn
    exact ⟨Fault.navFailure, by rw [load_elements, if_pos (by simp [hn])]⟩

/-- C4 counterexample: a browser that navigates fine but whose first "show
more" attempt raises a fault other than the lookup timeout. In both modes the
run does not abort: the fault is swallowed by the bare `except:` and
`load_elements` returns the current elements normally. -/
theorem load_swallows_other_faults :
    cexAtt 0 = AttemptResult.otherFault ∧
    cexAtt 0 ≠ AttemptResult.timeoutNoControl ∧
    cexBrowser.navOk = true ∧
    load_elements cexBrowser true 0 1 = Except.ok (some []) ∧
    load_elements cexBrowser false 1 0 = Except.ok (some []) :=
  ⟨rfl, by decide, rfl, rfl, rfl⟩

/-- C6: `make_url` is deterministic (equal inputs give the identical string)
and the produced URL is exactly the fixed prefix followed by the comma-joined
tags, the location separator, the comma-joined countries, the posted-date
separator and the day count — so each token sequence appears as the
corresponding query value, once, in that order; each joined token string and
the day count occur as contiguous substrings. -/
theorem make_url_deterministic_structure (c t : List String) (d : Int)
    (c2 t2 : List String) (d2 : Int) (hc : c = c2) (ht : t = t2) (hd : d = d2) :
    make_url c t d = make_url c2 t2 d2 ∧
    make_url c t d = urlHead ++ String.intercalate comma t ++ locParam ++
      String.intercalate comma c ++ dateParam ++ toString d ∧
    List.IsInfix (String.intercalate comma t).data (make_url c t d).data ∧
    List.IsInfix (String.intercalate comma c).data (make_url c t d).data ∧
    List.IsInfix (toString d).data (make_url c t d).data := by
  subst hc ht hd
  refine ⟨rfl, rfl, ?_, ?_, ?_⟩
  · refine ⟨urlHead.data,
      (locParam ++ String.intercalate comma c ++ dateParam ++ toString d).data, ?_⟩
    simp [make_url, String.data_append]
  · refine ⟨(urlHead ++ String.intercalate comma t ++ locParam).data,
      (dateParam ++ toString d).data, ?_⟩
    simp [make_url, String.data_append]
  · refine ⟨(urlHead ++ String.intercalate comma t ++ locParam ++
      String.intercalate comma c ++ dateParam).data, [], ?_⟩
    simp [make_url, String.data_append]

/-- Witness for C6 at concrete country and tag lists and day count 30. -/
theorem make_url_deterministic_structure_witness :
    make_url wCountries wTags 30 = make_url wCountries wTags 30 ∧
    make_url wCountries wTags 30 = urlHead ++ String.intercalate comma wTags ++ locParam ++
      String.intercalate comma wCountries ++ dateParam ++ toString (30 : Int) ∧
    List.IsInfix (String.intercalate comma wTags).data (make_url wCountries wTags 30).data ∧
    List.IsInfix (String.intercalate comma wCountries).data (make_url wCountries wTags 30).data ∧
    List.IsInfix (toString (30 : Int)).data (make_url wCountries wTags 30).data :=
  make_url_deterministic_structure wCountries wTags 30 wCountries wTags 30 rfl rfl rfl

/-- C7: when the detail page has no description element, `get_job_data` fails
with the element-not-found error and returns no record; no default description
is supplied. -/
theorem detail_missing_description (page : DetailPage) (url : String)
    (h : page.jobDetail = none) :
    get_job_data page url = Except.error ScrapeError.noSuchElement := by
  simp [get_job_data, h]

/-- Witness for C7 at a concrete detail page without a description element. -/
theorem detail_missing_description_witness :
    get_job_data noDescPage wHref = Except.error ScrapeError.noSuchElement :=
  detail_missing_description noDescPage wHref rfl

/-- C8: the keywords of the returned record are exactly the texts of the tag
elements whose stripped text is non-empty, in page order (an order-preserving
sublist of all tag texts, duplicates kept), and every kept keyword has
non-empty stripped text. -/
theorem detail_keywords_filter (page : DetailPage) (url d : String)
    (h : page.jobDetail = some d) :
    get_job_data page url = Except.ok (JobData.mk url d
      ((page.tags.filter (fun e => pyStrip e.text != emptyString)).map Element.text)) ∧
    List.Sublist ((page.tags.filter (fun e => pyStrip e.text != emptyString)).map Element.text)
      (page.tags.map Element.text) ∧
    ∀ k, k ∈ (page.tags.filter (fun e => pyStrip e.text != emptyString)).map Element.text →
      pyStrip k ≠ emptyString := by
  refine ⟨by simp [get_job_data, h], List.Sublist.map _ (List.filter_sublist _), ?_⟩
  intro k hk
  rw [List.mem_map] at hk
  obtain ⟨e, he, rfl⟩ := hk
  rw [List.mem_filter] at he
  simpa using he.2

/-- Witness for C8 at a concrete page with a blank tag between two kept tags. -/
theorem detail_keywords_filter_witness :
    get_job_data wPage wHref = Except.ok (JobData.mk wHref wDesc
      ((wPage.tags.filter (fun e => pyStrip e.text != emptyString)).map Element.text)) ∧
    List.Sublist ((wPage.tags.filter (fun e => pyStrip e.text != emptyString)).map Element.text)
      (wPage.tags.map Element.text) ∧
    pyStrip ((wPage.tags.filter (fun e => pyStrip e.text != emptyString)).map
      Element.text).headI ≠ emptyString :=
  ⟨(detail_keywords_filter wPage wHref wDesc rfl).1,
   (detail_keywords_filter wPage wHref wDesc rfl).2.1,
   (detail_keywords_filter wPage wHref wDesc rfl).2.2 _ (by decide)⟩

end JobsAnalyzer
